import Mathlib

/-!
Shallow embedding of the `gql-pygen` code generator core
(`src/gql_pygen/core/ir.py`, `query_builder.py`, `executor.py`, `parser.py`)
and proofs about its field-selection, caching, discovery and extraction logic.

Modelling conventions:
* Python `dict`s keyed by strings are modelled as association lists; an
  assignment that overwrites a key is modelled by prepending, so that lookup
  finds the latest binding.
* Python exceptions raised by the modelled code are surfaced as `Except`
  errors; `PyError.attributeError` models an `AttributeError`,
  `PyError.recursionError` models the interpreter `RecursionError` raised when
  the call stack is exhausted (the `fuel` parameter counts remaining frames).
* Python `int` depths are modelled as `Nat` (the code only ever uses
  non-negative depths, starting at `len(path) + 1 ≥ 1`).
-/

namespace GqlPygen

/-- `IRArgument` from `gql_pygen/core/ir.py` (fields used by the code under
verification; `default_value`/`description` carry no behaviour here). -/
structure IRArgument where
  name : String
  type_name : String
  is_list : Bool := false
  is_optional : Bool := true
  deriving Repr, DecidableEq

/-- `IRField` from `gql_pygen/core/ir.py`. -/
structure IRField where
  name : String
  type_name : String
  is_list : Bool := false
  is_optional : Bool := true
  arguments : List IRArgument := []
  deriving Repr, DecidableEq

/-- `IRType` from `gql_pygen/core/ir.py`; `IRInterface` has the same
`name`/`fields` shape and is modelled by the same structure. -/
structure IRType where
  name : String
  fields : List IRField
  deriving Repr, DecidableEq

/-- `IROperation` from `gql_pygen/core/ir.py`.  `__post_init__` sets
`path = [name]` when an empty path is passed; the operations studied here are
always constructed with their path spelled out. -/
structure IROperation where
  name : String
  operation_type : String
  arguments : List IRArgument
  return_type : String
  is_return_list : Bool := false
  is_return_optional : Bool := true
  path : List String := []
  parent_arguments : List IRArgument := []
  deriving Repr, DecidableEq

/-- `IRSchema` from `gql_pygen/core/ir.py`; the `scalars` and `enums` dicts
only contribute their key sets to the query builder, so they are modelled by
their lists of names. -/
structure IRSchema where
  scalars : List String := []
  enums : List String := []
  types : List IRType := []
  inputs : List IRType := []
  interfaces : List IRType := []
  queries : List IROperation := []
  mutations : List IROperation := []
  deriving Repr, DecidableEq

/-- Python `str.endswith(sfx)`. -/
def py_endswith (s sfx : String) : Bool :=
  List.isSuffixOf sfx.data s.data

/-- The splitting loop of Python `str.split(sep)` for a one-character
separator (the code only ever splits on `"."` and `"_"`): every occurrence
splits, empty pieces included. -/
def split_char (sep : Char) : List Char → List (List Char)
  | [] => [[]]
  | c :: cs =>
    if c == sep then [] :: split_char sep cs
    else
      match split_char sep cs with
      | [] => [[c]]
      | w :: ws => (c :: w) :: ws

/-- Python `str.split(sep)` for a one-character separator. -/
def py_split (s : String) (sep : Char) : List String :=
  (split_char sep s.data).map String.mk

/-- Name lookup in one of the schema dictionaries (`self.ir.types.get(n)`). -/
def find_type (ts : List IRType) (n : String) : Option IRType :=
  ts.find? (fun t => t.name == n)

/-- `IRSchema.get_type_by_name`: types, then inputs, then interfaces. -/
def IRSchema.get_type_by_name (sch : IRSchema) (n : String) : Option IRType :=
  match find_type sch.types n with
  | some t => some t
  | none =>
    match find_type sch.inputs n with
    | some t => some t
    | none => find_type sch.interfaces n

/-- `IRSchema.is_namespace_type`. -/
def is_namespace_type (type_name : String) : Bool :=
  py_endswith type_name "Mutations" || py_endswith type_name "Queries"

/-- `IROperation.all_arguments`. -/
def IROperation.all_arguments (op : IROperation) : List IRArgument :=
  op.parent_arguments ++ op.arguments

/-! ### `_to_snake_case` (regex-based camelCase to snake_case) -/

def is_ascii_lower (c : Char) : Bool := 'a' ≤ c && c ≤ 'z'

def is_ascii_upper (c : Char) : Bool := 'A' ≤ c && c ≤ 'Z'

def is_ascii_digit (c : Char) : Bool := '0' ≤ c && c ≤ '9'

/-- Whether a character list starts with an ASCII lowercase letter. -/
def starts_lower : List Char → Bool
  | [] => false
  | e :: _ => is_ascii_lower e

/-- One left-to-right pass of `re.sub('(.)([A-Z][a-z]+)', r'\1_\2', s)` as a
character state machine: in the normal state an `(.)([A-Z][a-z]+)` match at
the current position inserts the underscore and enters the run state; the
run state copies the greedy `[a-z]+` run, inside which no new match can
start (non-overlapping matches), and leaves it at the first non-lowercase
character, where scanning resumes. -/
def sub1_go : Bool → List Char → List Char
  | _, [] => []
  | _, [c] => [c]
  | in_run, c :: d :: rest =>
    if in_run && is_ascii_lower c then c :: sub1_go true (d :: rest)
    else if is_ascii_upper d && starts_lower rest then
      c :: '_' :: d :: sub1_go true rest
    else c :: sub1_go false (d :: rest)

/-- `re.sub('(.)([A-Z][a-z]+)', r'\1_\2', s)`: leftmost non-overlapping
matches, `.` modelled as any character (the names fed to it contain no
newline). -/
def camel_sub1 (l : List Char) : List Char :=
  sub1_go false l

/-- `re.sub('([a-z0-9])([A-Z])', r'\1_\2', s)`. -/
def camel_sub2 : List Char → List Char
  | [] => []
  | [c] => [c]
  | c :: d :: rest =>
    if (is_ascii_lower c || is_ascii_digit c) && is_ascii_upper d then
      c :: '_' :: d :: camel_sub2 rest
    else c :: camel_sub2 (d :: rest)

/-- `IROperation._to_snake_case`. -/
def to_snake_case (name : String) : String :=
  String.mk ((camel_sub2 (camel_sub1 name.data)).map Char.toLower)

/-- `IROperation.full_name`: underscore-joined snake-cased path. -/
def IROperation.full_name (op : IROperation) : String :=
  "_".intercalate (op.path.map to_snake_case)

/-- Python `str.capitalize`: first character upper-cased, the rest lower-cased. -/
def capitalize_word (s : String) : String :=
  match s.data with
  | [] => ""
  | c :: cs => String.mk (Char.toUpper c :: cs.map Char.toLower)

/-- `QueryBuilder._to_pascal_case`. -/
def to_pascal_case (snake_str : String) : String :=
  String.join ((py_split snake_str '_').map capitalize_word)

/-! ### Variable mapping (`_get_variable_mapping`, `_type_to_var_suffix`) -/

/-- One step of the suffix-stripping loop in `_type_to_var_suffix`. -/
def strip_type_suffix (name sfx : String) : String :=
  if py_endswith name sfx then name.dropRight sfx.length else name

/-- `QueryBuilder._type_to_var_suffix`: strip trailing `Input`, then
`Mutation`, then `Payload`, then lower-case the first character
(`"arg"` when nothing is left). -/
def type_to_var_suffix (type_name : String) : String :=
  let name := strip_type_suffix (strip_type_suffix (strip_type_suffix type_name "Input") "Mutation") "Payload"
  match name.data with
  | [] => "arg"
  | c :: cs => String.mk (Char.toLower c :: cs)

/-- The loop of `QueryBuilder._get_variable_mapping`; `seen` is the
`seen_names` set (membership is all that is used of it). -/
def get_variable_mapping_aux : List IRArgument → List String → List (IRArgument × String)
  | [], _ => []
  | a :: rest, seen =>
    let var_name :=
      if seen.contains a.name then a.name ++ "_" ++ type_to_var_suffix a.type_name
      else a.name
    (a, var_name) :: get_variable_mapping_aux rest (var_name :: seen)

/-- `QueryBuilder._get_variable_mapping`. -/
def get_variable_mapping (op : IROperation) : List (IRArgument × String) :=
  get_variable_mapping_aux op.all_arguments []

/-! ### Executor (`gql_pygen/core/executor.py`) -/

/-- The two error kinds `execute_operation` can raise before any network
traffic happens. -/
inductive ExecError where
  | runtimeError (msg : String)
  | valueError (msg : String)
  deriving Repr, DecidableEq

/-- The executor state that `execute_operation` consults: `_query_builder`
(present iff `_init_schema` ran, carrying the schema) and the `_operations`
path-keyed dict. -/
structure ExecutorState where
  query_builder : Option IRSchema
  operations : List (List String × IROperation)

/-- `_init_schema`'s operation dict: `self._operations[tuple(op.path)] = op`
for every query and mutation; overwriting is modelled by prepending. -/
def init_operations (sch : IRSchema) : List (List String × IROperation) :=
  (sch.queries ++ sch.mutations).foldl (fun d op => (op.path, op) :: d) []

/-- The validation prefix of `GraphQLExecutor.execute_operation`
(executor.py lines 158-165): uninitialized-builder check, then catalogue
lookup.  On success it resolves the operation; the subsequent query build and
HTTP exchange are outside this model. -/
def execute_operation (st : ExecutorState) (operation_path : List String) :
    Except ExecError IROperation :=
  match st.query_builder with
  | none => .error (.runtimeError "Schema not initialized. Call _init_schema first.")
  | some _ =>
    match st.operations.lookup operation_path with
    | none => .error (.valueError ("Unknown operation: " ++ ".".intercalate operation_path))
    | some op => .ok op

/-! ### Response extraction (`GraphQLExecutor._extract_path`) -/

/-- Python values as seen by `_extract_path`: `None`, scalars, lists and
string-keyed dicts. -/
inductive PyVal where
  | none
  | bool (b : Bool)
  | int (n : Int)
  | str (s : String)
  | list (xs : List PyVal)
  | dict (entries : List (String × PyVal))

/-- Python `dict.get(k)`: the value, or `None` when the key is absent. -/
def dict_get (entries : List (String × PyVal)) (k : String) : PyVal :=
  match entries.lookup k with
  | some v => v
  | none => PyVal.none

/-- `GraphQLExecutor._extract_path`: walk the path; `None` propagates, a dict
is indexed with `.get`, anything else aborts with `None`. -/
def extract_path : PyVal → List String → PyVal
  | result, [] => result
  | PyVal.none, _ :: _ => PyVal.none
  | PyVal.dict es, seg :: rest => extract_path (dict_get es seg) rest
  | _, _ :: _ => PyVal.none

/-! ### Query builder (`gql_pygen/core/query_builder.py`) -/

/-- `FieldSelectionMode`. -/
inductive FieldSelectionMode where
  | all
  | minimal
  | custom
  deriving Repr, DecidableEq

/-- `FieldSelectionMode.value` (the enum's string payload). -/
def FieldSelectionMode.value : FieldSelectionMode → String
  | all => "all"
  | minimal => "minimal"
  | custom => "custom"

/-- `FieldSelection` (the `max_depth` int, default 10, used only through
`depth` comparisons, is modelled as `Nat`). -/
structure FieldSelection where
  mode : FieldSelectionMode := .all
  custom_fields : List String := []
  max_depth : Nat := 10
  deriving Repr, DecidableEq

/-- Exceptions the query builder can raise while building a document. -/
inductive PyError where
  | attributeError
  | recursionError
  deriving Repr, DecidableEq

/-- The hard-coded scalar name set from `QueryBuilder.__init__`. -/
def builtin_scalar_names : List String :=
  ["String", "Int", "Float", "Boolean", "ID",
   "DateTime", "Date", "Time", "JSON", "Long", "Any",
   "IPAddress", "Asn", "Domain", "Email", "Fqdn",
   "GlobalIPRange", "Hostname", "IPSubnet", "Mac",
   "Port", "SID", "Sha256", "Url", "CountryCode"]

/-- `QueryBuilder._scalar_types`: built-ins plus schema scalar and enum names. -/
def scalar_types (sch : IRSchema) : List String :=
  builtin_scalar_names ++ sch.scalars ++ sch.enums

/-- `QueryBuilder._is_scalar`. -/
def is_scalar (sch : IRSchema) (type_name : String) : Bool :=
  (scalar_types sch).contains type_name

/-- Python `"  " * depth`. -/
def indent_str (depth : Nat) : String :=
  String.join (List.replicate depth "  ")

/-- `QueryBuilder._build_minimal_fields`. -/
def build_minimal_fields (type_def : IRType) (indent : String) : String :=
  let lines := (indent ++ "__typename") ::
    (type_def.fields.filter
      (fun f => ["id", "ID", "status", "name"].contains f.name)).map
      (fun f => indent ++ f.name)
  "\n".intercalate lines

/-! #### The custom-field tree (`_build_custom_fields`) -/

/-- The nested `field_tree` dict; the value `True` stored under a `"*"` key is
only ever tested for key membership and is modelled as an empty node. -/
inductive FieldTree where
  | node : List (String × FieldTree) → FieldTree

def FieldTree.entries : FieldTree → List (String × FieldTree)
  | node es => es

def FieldTree.lookup (t : FieldTree) (k : String) : Option FieldTree :=
  List.lookup k t.entries

def FieldTree.has_key (t : FieldTree) (k : String) : Bool :=
  (t.lookup k).isSome

/-- Dict assignment `d[k] = v` preserving insertion order. -/
def tree_set (es : List (String × FieldTree)) (k : String) (v : FieldTree) :
    List (String × FieldTree) :=
  match es with
  | [] => [(k, v)]
  | (k2, v2) :: rest => if k2 == k then (k2, v) :: rest else (k2, v2) :: tree_set rest k v

/-- The inner loop of the tree construction in `_build_custom_fields`:
walk one dotted path into the tree (`"*"` marks the node and stops). -/
def insert_parts (t : FieldTree) : List String → FieldTree
  | [] => t
  | p :: rest =>
    if p == "*" then FieldTree.node (tree_set t.entries "*" (FieldTree.node []))
    else
      let sub := (t.lookup p).getD (FieldTree.node [])
      FieldTree.node (tree_set t.entries p (insert_parts sub rest))

/-- The `field_tree` built from the custom field paths. -/
def build_field_tree (custom_fields : List String) : FieldTree :=
  custom_fields.foldl (fun t fp => insert_parts t (py_split fp '.')) (FieldTree.node [])

/-- `QueryBuilder._build_custom_fields`.  The function recurses on nested
object fields without ever consulting `max_depth` or a visited set, so it is
only total up to the interpreter stack: `fuel` counts the remaining Python
frames and running out models the `RecursionError`.  The `for ir_field in
type_def.fields` loop is expressed as a right fold that emits the lines in
loop order and propagates the leftmost exception first. -/
def build_custom_fields (sch : IRSchema) (fuel : Nat) (type_def : IRType)
    (custom_fields : List String) (indent : String) (depth : Nat) :
    Except PyError String :=
  match fuel with
  | 0 => .error .recursionError
  | fuel' + 1 =>
    let tree := build_field_tree custom_fields
    let body := type_def.fields.foldr (fun f (acc : Except PyError (List String)) =>
      if tree.has_key f.name || tree.has_key "*" then
        if is_scalar sch f.type_name then
          match acc with
          | .error e => .error e
          | .ok ls => .ok ((indent ++ f.name) :: ls)
        else
          let subfields := (tree.lookup f.name).getD (FieldTree.node [])
          let subfields :=
            if tree.has_key "*" then FieldTree.node [("*", FieldTree.node [])] else subfields
          match sch.get_type_by_name f.type_name with
          | some nested_type =>
            let stripped := custom_fields.filterMap (fun s =>
              if (f.name ++ ".").isPrefixOf s then some (s.drop (f.name.length + 1))
              else none)
            let sub_custom :=
              if stripped.isEmpty then (if subfields.has_key "*" then ["*"] else [])
              else stripped
            match build_custom_fields sch fuel' nested_type sub_custom (indent ++ "  ")
                (depth + 1) with
            | .error e => .error e
            | .ok s =>
              match acc with
              | .error e => .error e
              | .ok ls => .ok ((indent ++ f.name ++ " \x7b") :: s :: (indent ++ "\x7d") :: ls)
          | none =>
            match acc with
            | .error e => .error e
            | .ok ls => .ok ((indent ++ f.name ++ " \x7b") :: (indent ++ "\x7d") :: ls)
      else acc) (Except.ok [])
    match body with
    | .error e => .error e
    | .ok ls => .ok ("\n".intercalate ((indent ++ "__typename") :: ls))

/-- `QueryBuilder._build_all_fields`.  Recursion into a nested type is
guarded by `depth < max_depth` and the `visited` set; `fuel` again counts
interpreter frames (the guard keeps the real recursion within `max_depth`,
so any fuel above that bound behaves identically).  The `else` branch of the
guard evaluates the f-string `f"{indent}{field.name} {{ __typename }}"`, and
`field` there is the `dataclasses.field` function imported at module level
(the loop variable is `ir_field`), so reaching it raises `AttributeError`.
The field loop is a right fold emitting lines in loop order with the
leftmost exception propagated first. -/
def build_all_fields (sch : IRSchema) (fuel : Nat) (type_def : IRType)
    (indent : String) (depth : Nat) (fields : FieldSelection)
    (visited : List String) : Except PyError String :=
  match fuel with
  | 0 => .error .recursionError
  | fuel' + 1 =>
    if visited.contains type_def.name then .ok (indent ++ "__typename")
    else
      let visited' := type_def.name :: visited
      let body := type_def.fields.foldr (fun f (acc : Except PyError (List String)) =>
        if is_scalar sch f.type_name then
          match acc with
          | .error e => .error e
          | .ok ls => .ok ((indent ++ f.name) :: ls)
        else
          match sch.get_type_by_name f.type_name with
          | some nested_type =>
            if depth < fields.max_depth then
              match build_all_fields sch fuel' nested_type (indent ++ "  ") (depth + 1)
                  fields visited' with
              | .error e => .error e
              | .ok s =>
                match acc with
                | .error e => .error e
                | .ok ls => .ok ((indent ++ f.name ++ " \x7b") :: s :: (indent ++ "\x7d") :: ls)
            else .error .attributeError
          | none => .error .attributeError) (Except.ok [])
      match body with
      | .error e => .error e
      | .ok [] => .ok (indent ++ "__typename")
      | .ok ls => .ok ("\n".intercalate ls)

/-- `QueryBuilder._build_return_fields`. -/
def build_return_fields (sch : IRSchema) (fuel : Nat) (type_name : String)
    (fields : FieldSelection) (depth : Nat) : Except PyError String :=
  let indent := indent_str depth
  if depth > fields.max_depth then .ok (indent ++ "__typename")
  else if is_scalar sch type_name then .ok ""
  else
    match sch.get_type_by_name type_name with
    | none => .ok (indent ++ "__typename")
    | some type_def =>
      match fields.mode with
      | .minimal => .ok (build_minimal_fields type_def indent)
      | .custom => build_custom_fields sch fuel type_def fields.custom_fields indent depth
      | .all => build_all_fields sch fuel type_def indent depth fields []

/-- `_build_field_arguments_with_mapping` applied to one level's
(argument, variable-name) pairs.  The source keys its dict by `id(arg)`;
since the level's arguments are exactly a sub-range of `all_arguments`, the
identity map is modelled positionally and every lookup succeeds. -/
def field_args_str (pairs : List (IRArgument × String)) : String :=
  if pairs.isEmpty then ""
  else "(" ++ ", ".intercalate (pairs.map (fun av => av.1.name ++ ": $" ++ av.2)) ++ ")"

/-- The arguments placed at path level `i` by `_build_operation_body`: each
namespace level (every level but the last) consumes the next parent argument
while any remain, and the final level carries the operation's own
arguments. -/
def level_args (i npath : Nat) (parent_vars op_vars : List (IRArgument × String)) :
    List (IRArgument × String) :=
  if i < npath - 1 then
    match parent_vars.drop i with
    | [] => []
    | a :: _ => [a]
  else op_vars

/-- `QueryBuilder._build_operation_body`: opening lines for every path
segment, the return-type field block at depth `len(path) + 1`, then the
closing braces. -/
def build_operation_body (sch : IRSchema) (fuel : Nat) (op : IROperation)
    (fields : FieldSelection) : Except PyError String :=
  let var_mapping := get_variable_mapping op
  let parent_vars := var_mapping.take op.parent_arguments.length
  let op_vars := var_mapping.drop op.parent_arguments.length
  let npath := op.path.length
  let open_lines := op.path.mapIdx (fun i segment =>
    indent_str (i + 1) ++ segment ++
      field_args_str (level_args i npath parent_vars op_vars) ++ " \x7b")
  let close_lines := (List.range npath).reverse.map (fun i => indent_str (i + 1) ++ "\x7d")
  match build_return_fields sch fuel op.return_type fields (npath + 1) with
  | .error e => .error e
  | .ok return_fields =>
    .ok ("\n".intercalate (open_lines ++ return_fields :: close_lines))

/-- `QueryBuilder._build_variable_declarations`. -/
def build_variable_declarations (op : IROperation) : String :=
  let decls := (get_variable_mapping op).map (fun av =>
    let type_str := av.1.type_name
    let type_str := if av.1.is_list then "[" ++ type_str ++ "]" else type_str
    let type_str := if !av.1.is_optional then type_str ++ "!" else type_str
    "$" ++ av.2 ++ ": " ++ type_str)
  ", ".intercalate decls

/-- The memoization key of `QueryBuilder.build`:
`f"{operation.full_name}:{fields.mode.value}"`. -/
def build_cache_key (op : IROperation) (fields : FieldSelection) : String :=
  op.full_name ++ ":" ++ fields.mode.value

/-- `QueryBuilder.build` with the `_query_cache` dict threaded explicitly:
returns the document and the updated cache.  A cached entry is returned only
for non-`CUSTOM` modes, and only non-`CUSTOM` results are stored. -/
def build (sch : IRSchema) (fuel : Nat) (cache : List (String × String))
    (op : IROperation) (fields : FieldSelection) :
    Except PyError (String × List (String × String)) :=
  let cache_key := build_cache_key op fields
  match cache.lookup cache_key, fields.mode == FieldSelectionMode.custom with
  | some q, false => .ok (q, cache)
  | _, _ =>
    let var_decls := build_variable_declarations op
    match build_operation_body sch fuel op fields with
    | .error e => .error e
    | .ok body =>
      let op_name := to_pascal_case op.full_name
      let query := op.operation_type ++ " " ++ op_name ++ "(" ++ var_decls ++ ") \x7b\n"
        ++ body ++ "\n\x7d"
      if fields.mode == FieldSelectionMode.custom then .ok (query, cache)
      else .ok (query, (cache_key, query) :: cache)

/-! ### Namespace discovery (`SchemaParser`, `gql_pygen/core/parser.py`) -/

/-- One iteration of the `for field in type_def.fields` loop of
`SchemaParser._traverse_namespace`: recurse (through `recurse`, the traversal
at the remaining stack budget) into namespace-typed fields accumulating
their arguments, emit a leaf operation otherwise, skip `placeholder: bool`
placeholder fields.  `op_type` is threaded unchanged through the whole
traversal. -/
def traverse_step
    (recurse : String → List String → List IRArgument → Option (List IROperation))
    (op_type : String) (path : List String) (parent_args : List IRArgument)
    (f : IRField) (acc : Option (List IROperation)) : Option (List IROperation) :=
  if is_namespace_type f.type_name then
    match recurse f.type_name (path ++ [f.name]) (parent_args ++ f.arguments) with
    | none => none
    | some ops1 =>
      match acc with
      | none => none
      | some ops2 => some (ops1 ++ ops2)
  else
    if f.name == "placeholder" && f.type_name == "bool" then acc
    else
      match acc with
      | none => none
      | some ops =>
        some ({ name := f.name, operation_type := op_type, arguments := f.arguments,
                return_type := f.type_name, is_return_list := f.is_list,
                is_return_optional := f.is_optional, path := path ++ [f.name],
                parent_arguments := parent_args } :: ops)

/-- `SchemaParser._traverse_namespace`.  Looks the namespace type up in
`self.ir.types` only; when the lookup fails it returns with nothing emitted.
`fuel` counts remaining interpreter stack frames (`none` = `RecursionError`);
termination for cycle-free schemas is proved separately.  The field loop is
a right fold of `traverse_step` collecting the emitted operations in loop
order. -/
def traverse_namespace (sch : IRSchema) (fuel : Nat) (type_name : String)
    (op_type : String) (path : List String) (parent_args : List IRArgument) :
    Option (List IROperation) :=
  match fuel with
  | 0 => none
  | fuel' + 1 =>
    match find_type sch.types type_name with
    | none => some []
    | some type_def =>
      type_def.fields.foldr
        (traverse_step
          (fun tn p pa => traverse_namespace sch fuel' tn op_type p pa)
          op_type path parent_args)
        (some [])

/-- The root loops of `_discover_nested_operations`: every top-level
operation returning a namespace type is traversed with `path=[op.name]` and
its own arguments as the inherited ones. -/
def discover_roots (sch : IRSchema) (fuel : Nat) (op_type : String) :
    List IROperation → Option (List IROperation)
  | [] => some []
  | op :: rest =>
    if is_namespace_type op.return_type then
      match traverse_namespace sch fuel op.return_type op_type [op.name] op.arguments with
      | none => none
      | some l1 =>
        match discover_roots sch fuel op_type rest with
        | none => none
        | some l2 => some (l1 ++ l2)
    else discover_roots sch fuel op_type rest

/-- `SchemaParser._discover_nested_operations`: the pair of nested query and
mutation lists that the parser appends to the catalogue. -/
def discover_nested_operations (sch : IRSchema) (fuel : Nat) :
    Option (List IROperation × List IROperation) :=
  match discover_roots sch fuel "query" sch.queries,
        discover_roots sch fuel "mutation" sch.mutations with
  | some nq, some nm => some (nq, nm)
  | _, _ => none

/-- The namespace-reference edge relation of a schema: the definition of `t`
(as `_traverse_namespace` finds it) has a field whose type name `u` is again
a namespace type.  A schema has no namespace cycle exactly when this finite
relation admits a strictly decreasing rank. -/
def ns_edge (sch : IRSchema) (t u : String) : Prop :=
  ∃ td f, find_type sch.types t = some td ∧ f ∈ td.fields ∧
    is_namespace_type f.type_name = true ∧ u = f.type_name

/-! ### Concrete fixtures used by the theorems below -/

/-- A self-referential object type: `type Node { self: Node }`. -/
def nodeType : IRType := { name := "Node", fields := [{ name := "self", type_name := "Node" }] }

def nodeSchema : IRSchema := { types := [nodeType] }

/-- A type with a field whose type is absent from the schema. -/
def objType : IRType := { name := "Obj", fields := [{ name := "u", type_name := "Unknown" }] }

def objSchema : IRSchema := { types := [objType] }

/-- A one-level namespace: `Query.policy : PolicyQueries`,
`PolicyQueries.rule : Rule`. -/
def ns_pq : IRType :=
  { name := "PolicyQueries",
    fields := [{ name := "rule", type_name := "Rule",
                 arguments := [{ name := "id", type_name := "ID", is_optional := false }] }] }

def ns_schema : IRSchema :=
  { types := [ns_pq],
    queries := [{ name := "policy", operation_type := "query",
                  arguments := [{ name := "accountId", type_name := "ID", is_optional := false }],
                  return_type := "PolicyQueries", path := ["policy"] }] }

/-- A namespace type whose single field references an undefined namespace
type `SubQueries`. -/
def pq_unresolved : IRType :=
  { name := "PolicyQueries", fields := [{ name := "sub", type_name := "SubQueries" }] }

def unresolved_schema : IRSchema :=
  { types := [pq_unresolved],
    queries := [{ name := "policy", operation_type := "query", arguments := [],
                  return_type := "PolicyQueries", path := ["policy"] }] }

/-- A namespace type with an unresolved namespace field followed by a leaf
field. -/
def pq_mixed : IRType :=
  { name := "PolicyQueries",
    fields := [{ name := "sub", type_name := "SubQueries" },
               { name := "rule", type_name := "Rule" }] }

def mixed_schema : IRSchema :=
  { types := [pq_mixed],
    queries := [{ name := "policy", operation_type := "query", arguments := [],
                  return_type := "PolicyQueries", path := ["policy"] }] }

/-- An operation whose inherited and own arguments exercise the
duplicate-name renaming: parents `input: X` and `input: FooInput`, own
`input_foo: Y`. -/
def dup_op : IROperation :=
  { name := "op", operation_type := "mutation",
    arguments := [{ name := "input_foo", type_name := "Y" }],
    return_type := "R", path := ["op"],
    parent_arguments := [{ name := "input", type_name := "X" },
                         { name := "input", type_name := "FooInput" }] }

/-- The spec's duplicate-`input` scenario: inherited `input: A`, own
`input: BInput`. -/
def dup2_op : IROperation :=
  { name := "m", operation_type := "mutation",
    arguments := [{ name := "input", type_name := "BInput" }],
    return_type := "R", path := ["m"],
    parent_arguments := [{ name := "input", type_name := "A" }] }

/-- A trivial argument-free operation returning a scalar. -/
def ping_op : IROperation :=
  { name := "ping", operation_type := "query", arguments := [],
    return_type := "String", path := ["ping"] }

/-- The document the builder produces for `ping_op` under `ALL`. -/
def ping_query : String :=
  "query Ping() \x7b\n  ping \x7b\n\n  \x7d\n\x7d"

/-- A schema that defines an object type shadowing the built-in scalar name
`DateTime`. -/
def dt_schema : IRSchema :=
  { types := [{ name := "DateTime", fields := [{ name := "iso", type_name := "String" }] }] }

def sample_response : PyVal :=
  .dict [("policy", .dict [("internetFirewall", .dict [("addRule", .dict [("id", .str "x")])])])]

/-- `sample_response` with the `addRule` key removed. -/
def sample_response_missing : PyVal :=
  .dict [("policy", .dict [("internetFirewall", .dict [])])]

/-! ### Claim theorems -/

/-- Claim C4: for every operation, `all_arguments` equals the concatenation
of `parent_arguments` followed by the operation's own `arguments`, in that
exact order. -/
theorem c4_all_arguments_order (op : IROperation) :
    op.all_arguments = op.parent_arguments ++ op.arguments := rfl

/-- Claim C7: requesting an operation whose path is not in the catalogue
raises `ValueError` (no document is produced), building before the schema is
attached raises `RuntimeError`, and the two error kinds are distinguishable. -/
theorem c7_executor_error_kinds (ops : List (List String × IROperation))
    (path : List String) (sch : IRSchema) :
    execute_operation ⟨none, ops⟩ path =
      .error (.runtimeError "Schema not initialized. Call _init_schema first.") ∧
    (ops.lookup path = none →
      execute_operation ⟨some sch, ops⟩ path =
        .error (.valueError ("Unknown operation: " ++ ".".intercalate path))) ∧
    (∀ m1 m2, ExecError.runtimeError m1 ≠ ExecError.valueError m2) := by
  refine ⟨rfl, fun h => ?_, fun m1 m2 hc => by cases hc⟩
  simp [execute_operation, h]

/-- Witness for C7 at a concrete state: no builder, and an empty catalogue. -/
theorem c7_executor_error_kinds_witness :
    execute_operation ⟨none, []⟩ ["x"] =
      .error (.runtimeError "Schema not initialized. Call _init_schema first.") ∧
    execute_operation ⟨some {}, []⟩ ["x"] =
      .error (.valueError "Unknown operation: x") :=
  ⟨(c7_executor_error_kinds [] ["x"] {}).1,
   (c7_executor_error_kinds [] ["x"] {}).2.1 rfl⟩

/-- Claim C8: response extraction walks the path segment by segment,
returns `None` as soon as an intermediate value is missing or not a dict,
and otherwise returns the value at the final segment; on the concrete
three-level response it returns the inner object, and `None` once `addRule`
is removed. -/
theorem c8_extract_path_walk :
    (∀ d, extract_path d [] = d) ∧
    (∀ seg rest, extract_path PyVal.none (seg :: rest) = PyVal.none) ∧
    (∀ es seg rest,
      extract_path (PyVal.dict es) (seg :: rest) = extract_path (dict_get es seg) rest) ∧
    (∀ d seg rest, (∀ es, d ≠ PyVal.dict es) → d ≠ PyVal.none →
      extract_path d (seg :: rest) = PyVal.none) ∧
    extract_path sample_response ["policy", "internetFirewall", "addRule"] =
      PyVal.dict [("id", PyVal.str "x")] ∧
    extract_path sample_response_missing ["policy", "internetFirewall", "addRule"] =
      PyVal.none := by
  refine ⟨fun d => by cases d <;> rfl, fun _ _ => rfl, fun _ _ _ => rfl,
    fun d seg rest h1 h2 => ?_, rfl, rfl⟩
  cases d with
  | none => exact absurd rfl h2
  | dict es => exact absurd rfl (h1 es)
  | bool b => rfl
  | int n => rfl
  | str s => rfl
  | list xs => rfl

/-- Witness for C8's non-container case: extracting through a string aborts
with `None`. -/
theorem c8_extract_path_walk_witness :
    extract_path (PyVal.str "v") ["a"] = PyVal.none :=
  c8_extract_path_walk.2.2.2.1 (PyVal.str "v") "a" []
    (fun es h => by cases h) (fun h => by cases h)

/-- Claim C1 fails on the code (code bug): under `CUSTOM` policy with a
wildcard selector on the self-referential type `Node`, `_build_custom_fields`
never consults `max_depth` and recurses forever — with any amount of stack
(`fuel`) the build ends in `RecursionError`, never in a finite document with
a `__typename` fallback; the same happens through `_build_return_fields` at
the default `max_depth = 10`. -/
theorem c1_custom_wildcard_unbounded :
    (∀ fuel indent depth,
      build_custom_fields nodeSchema fuel nodeType ["*"] indent depth =
        .error .recursionError) ∧
    (∀ fuel,
      build_return_fields nodeSchema fuel "Node"
        { mode := .custom, custom_fields := ["*"] } 1 = .error .recursionError) := by
  have key : ∀ fuel indent depth,
      build_custom_fields nodeSchema fuel nodeType ["*"] indent depth =
        .error .recursionError := by
    intro fuel
    induction fuel with
    | zero => intro indent depth; rfl
    | succ n ih =>
      intro indent depth
      have h := ih (indent ++ "  ") (depth + 1)
      change (match (match build_custom_fields nodeSchema n nodeType ["*"]
            (indent ++ "  ") (depth + 1) with
          | Except.error e => Except.error e
          | Except.ok s => Except.ok [indent ++ "self" ++ " \x7b", s, indent ++ "\x7d"]) with
        | Except.error e => Except.error e
        | Except.ok ls => Except.ok ("\n".intercalate ((indent ++ "__typename") :: ls)))
        = Except.error PyError.recursionError
      rw [h]
  refine ⟨key, fun fuel => ?_⟩
  show build_custom_fields nodeSchema fuel nodeType ["*"] (indent_str 1) 1 =
    Except.error PyError.recursionError
  exact key fuel (indent_str 1) 1

/-- Claim C2 fails on the code (code bug): when a *nested* object field's
type is not found in the schema under `ALL` policy, the fallback line of
`_build_all_fields` evaluates `field.name` on the `dataclasses.field`
function (the loop variable is `ir_field`), raising `AttributeError` instead
of degrading to `__typename`; only the *top-level* unresolved return type
degrades to a bare `__typename`. -/
theorem c2_unknown_nested_type_crashes :
    (∀ fuel, build_return_fields objSchema (fuel + 1) "Obj"
      { mode := .all } 1 = .error .attributeError) ∧
    (∀ fuel, build_return_fields objSchema fuel "Unknown"
      { mode := .all } 1 = .ok ("  " ++ "__typename")) := by
  constructor <;> intro fuel <;> rfl

/-- Claim C9 counterexample: the schema's `PolicyQueries.sub` field
references the undefined namespace type `SubQueries`; discovery emits *no*
operation at all (in particular none for `sub`), contradicting the claim
that the field is treated as a leaf with an operation emitted for it. -/
theorem c9_counterexample_no_leaf_emitted :
    discover_nested_operations unresolved_schema 2 = some ([], []) := rfl

/-- Claim C9 (amended): when a namespace field's type cannot be looked up,
discovery silently *skips the field entirely* — the unresolved traversal
emits nothing and does not recurse — and proceeds with the remaining fields
(here: a sibling leaf field still produces its operation). -/
theorem c9_amended_unresolved_namespace_skipped :
    (∀ (sch : IRSchema) (fuel : Nat) (t op_type : String) (path : List String)
      (parent_args : List IRArgument),
      find_type sch.types t = none →
      traverse_namespace sch (fuel + 1) t op_type path parent_args = some []) ∧
    (∀ (sch : IRSchema) (fuel : Nat) (t op_type : String) (path : List String)
      (parent_args : List IRArgument) (td : IRType) (f1 f2 : IRField),
      find_type sch.types t = some td →
      td.fields = [f1, f2] →
      is_namespace_type f1.type_name = true →
      find_type sch.types f1.type_name = none →
      is_namespace_type f2.type_name = false →
      (f2.name == "placeholder" && f2.type_name == "bool") = false →
      traverse_namespace sch (fuel + 2) t op_type path parent_args =
        some [{ name := f2.name, operation_type := op_type, arguments := f2.arguments,
                return_type := f2.type_name, is_return_list := f2.is_list,
                is_return_optional := f2.is_optional, path := path ++ [f2.name],
                parent_arguments := parent_args }]) := by
  have skip : ∀ (sch : IRSchema) (fuel : Nat) (t op_type : String) (path : List String)
      (parent_args : List IRArgument),
      find_type sch.types t = none →
      traverse_namespace sch (fuel + 1) t op_type path parent_args = some [] := by
    intro sch fuel t op_type path parent_args h
    simp [traverse_namespace, h]
  refine ⟨skip, ?_⟩
  intro sch fuel t op_type path parent_args td f1 f2 hfind hfields hns1 hnone hns2 hph
  have hph' : ¬(f2.name = "placeholder" ∧ f2.type_name = "bool") := by
    intro hc
    simp [hc.1, hc.2] at hph
  simp [traverse_namespace, traverse_step, hfind, hfields, hns1, hns2, hph', hnone]

/-- Witness for C9's amended statement on a concrete schema: `sub` (type
`SubQueries`, undefined) is skipped, the sibling leaf `rule` is emitted. -/
theorem c9_amended_witness :
    traverse_namespace mixed_schema 1 "SubQueries" "query" ["policy", "sub"] [] = some [] ∧
    traverse_namespace mixed_schema 2 "PolicyQueries" "query" ["policy"] [] =
      some [{ name := "rule", operation_type := "query", arguments := [],
              return_type := "Rule", path := ["policy", "rule"],
              parent_arguments := [] }] :=
  ⟨c9_amended_unresolved_namespace_skipped.1 mixed_schema 0 "SubQueries" "query"
      ["policy", "sub"] [] rfl,
   c9_amended_unresolved_namespace_skipped.2 mixed_schema 0 "PolicyQueries" "query"
      ["policy"] [] pq_mixed
      { name := "sub", type_name := "SubQueries" }
      { name := "rule", type_name := "Rule" }
      rfl rfl rfl rfl rfl rfl⟩

/-- Claim C10: the query builder treats every name in the built-in scalar
set as a scalar under every schema: such a return type yields an empty
sub-selection block (no expansion) whenever the depth bound allows any
output at all, and a field of such a type is emitted bare (never expanded)
by both the `ALL` and `CUSTOM` loops — even when the schema defines an
object type of that very name (the lookup is never consulted). -/
theorem c10_builtin_scalars_shadow (sch : IRSchema) (name : String)
    (hmem : builtin_scalar_names.contains name = true) :
    is_scalar sch name = true ∧
    (∀ fuel fields depth, depth ≤ fields.max_depth →
      build_return_fields sch fuel name fields depth = .ok "") ∧
    (∀ fuel tn f indent depth fields visited, f.type_name = name →
      visited.contains tn = false →
      build_all_fields sch (fuel + 1) { name := tn, fields := [f] } indent depth
        fields visited = .ok (indent ++ f.name)) ∧
    (∀ fuel tn f indent depth, f.type_name = name →
      build_custom_fields sch (fuel + 1) { name := tn, fields := [f] } ["*"]
        indent depth = .ok (indent ++ "__typename" ++ "\n" ++ (indent ++ f.name))) := by
  have hsc : is_scalar sch name = true := by
    have hmem2 : name ∈ builtin_scalar_names := by simpa using hmem
    simp only [is_scalar, scalar_types]
    simp [hmem2]
  refine ⟨hsc, fun fuel fields depth hd => ?_, fun fuel tn f indent depth fields visited hf hv => ?_,
    fun fuel tn f indent depth hf => ?_⟩
  · simp only [build_return_fields]
    rw [if_neg (by omega), if_pos hsc]
  · subst hf
    have hv2 : tn ∉ visited := by simpa using hv
    simp [build_all_fields, hsc, hv2, String.intercalate, String.intercalate.go]
  · subst hf
    have hstar : (build_field_tree ["*"]).has_key "*" = true := rfl
    simp [build_custom_fields, hsc, hstar, String.intercalate, String.intercalate.go,
      String.append_assoc]

/-- The mapping loop assigns one variable per argument. -/
theorem gvm_aux_length (args : List IRArgument) (seen : List String) :
    (get_variable_mapping_aux args seen).length = args.length := by
  induction args generalizing seen with
  | nil => rfl
  | cons a rest ih => simp [get_variable_mapping_aux, ih]

/-- Position-wise characterization of `_get_variable_mapping`: an argument is
renamed exactly when its name collides with an *already assigned variable
name* (an earlier original or renamed name, or a name in the initial `seen`
set). -/
theorem gvm_aux_getD (d : IRArgument) :
    ∀ (args : List IRArgument) (seen : List String) (i : Nat), i < args.length →
    ((get_variable_mapping_aux args seen).map Prod.snd).getD i "" =
      (if (args.getD i d).name ∈ ((get_variable_mapping_aux args seen).map Prod.snd).take i ∨
          (args.getD i d).name ∈ seen
       then (args.getD i d).name ++ "_" ++ type_to_var_suffix (args.getD i d).type_name
       else (args.getD i d).name) := by
  intro args
  induction args with
  | nil => intro seen i h; simp at h
  | cons a rest ih =>
    intro seen i h
    cases i with
    | zero =>
      simp [get_variable_mapping_aux]
    | succ j =>
      have hj : j < rest.length := by simpa using h
      have hv : (if seen.contains a.name = true
            then a.name ++ "_" ++ type_to_var_suffix a.type_name else a.name)
          = (if a.name ∈ seen then a.name ++ "_" ++ type_to_var_suffix a.type_name
             else a.name) := by
        by_cases hs : a.name ∈ seen
        · simp [hs]
        · simp [hs]
      simp only [get_variable_mapping_aux, List.map_cons, List.getD_cons_succ,
        List.take_succ_cons, List.mem_cons, hv]
      rw [ih _ j hj]
      refine if_congr (by simp only [List.mem_cons]; tauto) rfl rfl

/-- Claim C5 counterexample: in `dup_op` the argument name `input_foo`
occurs exactly once among all argument names, yet its variable name is
`input_foo_y`, not `input_foo` — the first occurrence of an argument name
does *not* always keep that name (it collides with the variable name the
second `input` was renamed to). -/
theorem c5_counterexample_first_occurrence_renamed :
    (dup_op.all_arguments.map IRArgument.name).count "input_foo" = 1 ∧
    (get_variable_mapping dup_op).map Prod.snd = ["input", "input_foo", "input_foo_y"] := by
  constructor <;> rfl

/-- Claim C5 (amended): iterating `all_arguments` in order, an argument
keeps its name unless that name equals a variable name already assigned to
an earlier argument (whether that earlier name was original or itself the
product of renaming); on collision the variable is the name plus `"_"` plus
the type-derived suffix (trailing `Input`/`Mutation`/`Payload` stripped,
first character lower-cased).  In particular the duplicate-`input` scenario
(inherited `input: t1`, own `input: t2`) always yields the two distinct
variable names `input` and `input_<suffix t2>`. -/
theorem c5_amended_variable_mapping :
    (∀ (op : IROperation) (d : IRArgument) (i : Nat), i < op.all_arguments.length →
      ((get_variable_mapping op).map Prod.snd).getD i "" =
        (if (op.all_arguments.getD i d).name ∈
            ((get_variable_mapping op).map Prod.snd).take i
         then (op.all_arguments.getD i d).name ++ "_" ++
            type_to_var_suffix (op.all_arguments.getD i d).type_name
         else (op.all_arguments.getD i d).name)) ∧
    (∀ (op : IROperation) (t1 t2 : String) (b1 b2 b3 b4 : Bool),
      op.parent_arguments =
        [{ name := "input", type_name := t1, is_list := b1, is_optional := b2 }] →
      op.arguments =
        [{ name := "input", type_name := t2, is_list := b3, is_optional := b4 }] →
      ((get_variable_mapping op).map Prod.snd =
        ["input", "input_" ++ type_to_var_suffix t2] ∧
       "input" ≠ "input_" ++ type_to_var_suffix t2)) := by
  constructor
  · intro op d i h
    have hx := gvm_aux_getD d op.all_arguments [] i h
    simpa [get_variable_mapping] using hx
  · intro op t1 t2 b1 b2 b3 b4 hp ha
    constructor
    · simp [get_variable_mapping, IROperation.all_arguments, hp, ha,
        get_variable_mapping_aux]
    · intro heq
      have hlen := congrArg String.length heq
      have h5 : ("input" : String).length = 5 := rfl
      have h6 : ("input_" : String).length = 6 := rfl
      rw [String.length_append, h5, h6] at hlen
      omega

/-- Witness for C5's amended statement at the concrete operation `dup2_op`
(inherited `input: A`, own `input: BInput`). -/
theorem c5_amended_witness :
    ((get_variable_mapping dup2_op).map Prod.snd).getD 1 "" = "input_b" ∧
    (get_variable_mapping dup2_op).map Prod.snd = ["input", "input_b"] ∧
    "input" ≠ "input_b" := by
  refine ⟨?_, ?_, ?_⟩
  · have hx := c5_amended_variable_mapping.1 dup2_op
      { name := "", type_name := "" } 1 (by decide)
    rw [hx]
    rfl
  · exact (c5_amended_variable_mapping.2 dup2_op "A" "BInput" false true false true
      rfl rfl).1
  · exact fun h => (c5_amended_variable_mapping.2 dup2_op "A" "BInput" false true false true
      rfl rfl).2 h

/-- Claim C6: building a second time with the same operation and an `ALL` or
`MINIMAL` selection returns the first call's byte-identical document (the
key is in the cache and the stored value is returned), while a `CUSTOM`
build never reads the cache (its outcome equals the outcome on an empty
cache) and leaves the cache unchanged. -/
theorem c6_build_cache_policy :
    (∀ (sch : IRSchema) (fuel : Nat) (cache : List (String × String))
      (op : IROperation) (fields : FieldSelection) (q : String)
      (cache1 : List (String × String)),
      (fields.mode = FieldSelectionMode.all ∨ fields.mode = FieldSelectionMode.minimal) →
      build sch fuel cache op fields = .ok (q, cache1) →
      (build sch fuel cache1 op fields = .ok (q, cache1) ∧
       cache1.lookup (build_cache_key op fields) = some q)) ∧
    (∀ (sch : IRSchema) (fuel : Nat) (cache : List (String × String))
      (op : IROperation) (fields : FieldSelection),
      fields.mode = FieldSelectionMode.custom →
      build sch fuel cache op fields =
        (match build sch fuel [] op fields with
         | .ok (q, _) => .ok (q, cache)
         | .error e => .error e)) := by
  constructor
  · intro sch fuel cache op fields q cache1 hmode hb
    have hmc : (fields.mode == FieldSelectionMode.custom) = false := by
      rcases hmode with h | h <;> simp [h]
    cases hl : cache.lookup (build_cache_key op fields) with
    | some q0 =>
      simp [build, hl, hmc] at hb
      obtain ⟨hq, hc⟩ := hb
      subst hq
      subst hc
      constructor
      · simp [build, hl, hmc]
      · rw [hl]
    | none =>
      cases hbody : build_operation_body sch fuel op fields with
      | error e => simp [build, hl, hmc, hbody] at hb
      | ok body =>
        simp [build, hl, hmc, hbody] at hb
        obtain ⟨hq, hc⟩ := hb
        subst hq
        rw [← hc]
        constructor
        · simp [build, hmc, hbody, List.lookup]
        · simp [List.lookup]
  · intro sch fuel cache op fields hmode
    have hmc : (fields.mode == FieldSelectionMode.custom) = true := by simp [hmode]
    cases hl : cache.lookup (build_cache_key op fields) <;>
      cases hbody : build_operation_body sch fuel op fields <;>
        simp [build, hl, hmc, hbody]

/-- Namespace traversal succeeds (no stack exhaustion) whenever a rank
strictly decreasing along the namespace-reference edges bounds the fuel, and
every operation it emits has `path = <traversal prefix> ++ [its own field
name]`. -/
theorem traverse_namespace_total (sch : IRSchema) (rank : String → Nat)
    (hrank : ∀ t u, ns_edge sch t u → rank u < rank t) :
    ∀ (fuel : Nat) (t op_type : String) (path : List String)
      (parent_args : List IRArgument), rank t < fuel →
      ∃ l, traverse_namespace sch fuel t op_type path parent_args = some l ∧
        ∀ op ∈ l, ∃ pre, op.path = pre ++ [op.name] := by
  intro fuel
  induction fuel with
  | zero => intro t op_type path parent_args h; omega
  | succ n ih =>
    intro t op_type path parent_args hr
    cases hft : find_type sch.types t with
    | none =>
      refine ⟨[], ?_, by simp⟩
      simp [traverse_namespace, hft]
    | some td =>
      suffices h : ∀ fs : List IRField, (∀ f ∈ fs, f ∈ td.fields) →
          ∃ l, fs.foldr (traverse_step
              (fun tn p pa => traverse_namespace sch n tn op_type p pa)
              op_type path parent_args) (some []) = some l ∧
            ∀ op ∈ l, ∃ pre, op.path = pre ++ [op.name] by
        obtain ⟨l, hl, hp⟩ := h td.fields (fun _ hf => hf)
        refine ⟨l, ?_, hp⟩
        simp only [traverse_namespace, hft]
        exact hl
      intro fs
      induction fs with
      | nil => intro _; exact ⟨[], rfl, by simp⟩
      | cons f rest ihf =>
        intro hsub
        obtain ⟨l2, hl2, hp2⟩ := ihf (fun g hg => hsub g (List.mem_cons_of_mem f hg))
        by_cases hns : is_namespace_type f.type_name = true
        · have hedge : ns_edge sch t f.type_name :=
            ⟨td, f, hft, hsub f (List.mem_cons_self f rest), hns, rfl⟩
          have hrk : rank f.type_name < n := by
            have h1 := hrank t f.type_name hedge
            omega
          obtain ⟨l1, hl1, hp1⟩ := ih f.type_name op_type (path ++ [f.name])
            (parent_args ++ f.arguments) hrk
          refine ⟨l1 ++ l2, ?_, ?_⟩
          · simp [traverse_step, hns, hl1, hl2]
          · intro op hop
            rcases List.mem_append.mp hop with hcase | hcase
            · exact hp1 op hcase
            · exact hp2 op hcase
        · by_cases hph : (f.name == "placeholder" && f.type_name == "bool") = true
          · refine ⟨l2, ?_, hp2⟩
            simp [traverse_step, hns, hph, hl2]
          · refine ⟨(⟨f.name, op_type, f.arguments, f.type_name, f.is_list, f.is_optional,
                path ++ [f.name], parent_args⟩ : IROperation) :: l2, ?_, ?_⟩
            · simp [traverse_step, hns, hph, hl2]
            · intro op hop
              rcases List.mem_cons.mp hop with hcase | hcase
              · subst hcase
                exact ⟨path, rfl⟩
              · exact hp2 op hcase

/-- Claim C3: for every schema whose namespace-reference relation has no
cycle (witnessed by a strictly decreasing rank) and enough stack for the
ranks involved, Namespace Discovery terminates (returns a catalogue rather
than exhausting the stack), and every emitted leaf operation's path has
length at least 1 with its last segment equal to the leaf field's own
name. -/
theorem c3_discovery_terminates (sch : IRSchema) (rank : String → Nat) (fuel : Nat)
    (hrank : ∀ t u, ns_edge sch t u → rank u < rank t)
    (hfuel : ∀ op : IROperation, op ∈ sch.queries ++ sch.mutations →
      is_namespace_type op.return_type = true → rank op.return_type < fuel) :
    ∃ nq nm, discover_nested_operations sch fuel = some (nq, nm) ∧
      ∀ op ∈ nq ++ nm, 1 ≤ op.path.length ∧ op.path.getLast? = some op.name := by
  have hroots : ∀ (ops : List IROperation) (op_type : String),
      (∀ op ∈ ops, is_namespace_type op.return_type = true → rank op.return_type < fuel) →
      ∃ l, discover_roots sch fuel op_type ops = some l ∧
        ∀ op ∈ l, ∃ pre, op.path = pre ++ [op.name] := by
    intro ops op_type
    induction ops with
    | nil => intro _; exact ⟨[], rfl, by simp⟩
    | cons op rest ihr =>
      intro hops
      obtain ⟨l2, hl2, hp2⟩ := ihr (fun g hg => hops g (List.mem_cons_of_mem op hg))
      by_cases hns : is_namespace_type op.return_type = true
      · have hrk := hops op (List.mem_cons_self op rest) hns
        obtain ⟨l1, hl1, hp1⟩ := traverse_namespace_total sch rank hrank fuel
          op.return_type op_type [op.name] op.arguments hrk
        refine ⟨l1 ++ l2, ?_, ?_⟩
        · simp [discover_roots, hns, hl1, hl2]
        · intro o ho
          rcases List.mem_append.mp ho with hcase | hcase
          · exact hp1 o hcase
          · exact hp2 o hcase
      · refine ⟨l2, ?_, hp2⟩
        simp [discover_roots, hns, hl2]
  obtain ⟨nq, hq, hpq⟩ := hroots sch.queries "query"
    (fun op hop => hfuel op (List.mem_append_left _ hop))
  obtain ⟨nm, hm, hpm⟩ := hroots sch.mutations "mutation"
    (fun op hop => hfuel op (List.mem_append_right _ hop))
  refine ⟨nq, nm, ?_, ?_⟩
  · simp [discover_nested_operations, hq, hm]
  · intro op hop
    have hpre : ∃ pre, op.path = pre ++ [op.name] := by
      rcases List.mem_append.mp hop with hcase | hcase
      · exact hpq op hcase
      · exact hpm op hcase
    obtain ⟨pre, hpe⟩ := hpre
    constructor
    · rw [hpe]
      simp
    · rw [hpe]
      exact List.getLast?_concat _

/-- Witness for C3 on the acyclic one-level namespace schema `ns_schema`
(rank constantly `0`, fuel `1`): discovery succeeds and the emitted
operation paths end in their own field names. -/
theorem c3_discovery_terminates_witness :
    ∃ nq nm, discover_nested_operations ns_schema 1 = some (nq, nm) ∧
      ∀ op ∈ nq ++ nm, 1 ≤ op.path.length ∧ op.path.getLast? = some op.name := by
  refine c3_discovery_terminates ns_schema (fun _ => 0) 1 ?_ ?_
  · rintro t u ⟨td, f, h1, h2, h3, h4⟩
    exfalso
    simp only [ns_schema, find_type, List.find?] at h1
    by_cases hbeq : (ns_pq.name == t) = true
    · rw [hbeq] at h1
      simp at h1
      subst h1
      simp [ns_pq] at h2
      subst h2
      simp [is_namespace_type, py_endswith] at h3
      revert h3
      decide
    · simp [hbeq] at h1
  · intro op hop hns
    exact Nat.zero_lt_one

/-- Witness for C6 on the concrete `ping_op`: the first `ALL` build stores
`ping_query` under the key `"ping:all"`, and the second build returns it
unchanged. -/
theorem c6_build_cache_policy_witness :
    build {} 3 [("ping:all", ping_query)] ping_op {} =
      .ok (ping_query, [("ping:all", ping_query)]) ∧
    List.lookup "ping:all" [("ping:all", ping_query)] = some ping_query :=
  c6_build_cache_policy.1 {} 3 [] ping_op {} ping_query [("ping:all", ping_query)]
    (Or.inl rfl) (by rfl)

/-- Witness for C10: the schema `dt_schema` defines an object type named
`DateTime`, yet the builder treats `DateTime` as a scalar and never selects
its fields. -/
theorem c10_builtin_scalars_shadow_witness :
    is_scalar dt_schema "DateTime" = true ∧
    build_return_fields dt_schema 5 "DateTime" {} 1 = .ok "" :=
  ⟨(c10_builtin_scalars_shadow dt_schema "DateTime" (by rfl)).1,
   (c10_builtin_scalars_shadow dt_schema "DateTime" (by rfl)).2.1 5 {} 1 (by decide)⟩

end GqlPygen
